import Mathlib

/-!
Shallow embedding of the repository-initialization core of go-filecoin
(`internal/app/go-filecoin/node/init.go`).  The orchestrator `Init` and its
helpers `initPeerKey`, `initDefaultKey`, `importInitKeys` and the option
constructors are translated from the source.  The collaborators that the
source calls but whose code is not given (chain installation, keystore,
wallet backend, repository configuration persistence, libp2p key
generation) are modelled from the specification, with doc comments saying
so.  Go's in-place mutation of the repository becomes explicit state
passing: every operation returns the repository state it leaves behind,
also on failure, mirroring the non-atomic failure model of the source.
-/

namespace Node

/-- Wallet addresses, modelled abstractly. -/
abbrev Address := Nat

/-- The asymmetric key algorithms offered by the libp2p crypto package. -/
inductive KeyAlgo where
  | RSA
  | Ed25519
  | Secp256k1
  | ECDSA
deriving DecidableEq, Repr

/-- A libp2p private key: the algorithm and size it was generated with,
plus its raw material. -/
structure PrivKey where
  alg : KeyAlgo
  bits : Nat
  material : Nat
deriving DecidableEq, Repr

/-- Modelled from the spec: `crypto.GenerateKeyPair` of go-libp2p-core is
not part of the given source.  The spec says a keypair is generated with a
fixed asymmetric algorithm at a fixed key size; generation is modelled as
deterministic in a freshness counter threaded through the state. -/
def generateKeyPair (alg : KeyAlgo) (bits : Nat) (supply : Nat) : PrivKey :=
  ⟨alg, bits, supply⟩

/-- A key store: association of aliases to private keys. -/
abbrev Keystore := List (String × PrivKey)

/-- Modelled from the spec: the key store (go-ipfs-keystore) is an external
collaborator; per the spec its put stores the keypair under the alias,
"unconditionally overwriting any prior value". -/
def Keystore.put (ks : Keystore) (name : String) (k : PrivKey) : Keystore :=
  (name, k) :: ks.filter (fun p => p.fst != name)

/-- How many entries the key store holds under the given alias. -/
def Keystore.countFor (ks : Keystore) (name : String) : Nat :=
  (ks.filter (fun p => p.fst == name)).length

/-- Look up the current entry under the given alias. -/
def Keystore.getKey (ks : Keystore) (name : String) : Option PrivKey :=
  (ks.find? (fun p => p.fst == name)).map Prod.snd

/-- A wallet key record: private key material plus a validity bit standing
for well-formedness of the material. -/
structure KeyInfo where
  material : Nat
  valid : Bool
deriving DecidableEq, Repr

/-- Modelled from the spec: a key record's address is derivable from its
key material, and derivation "fails if the key material is malformed". -/
def KeyInfo.address (ki : KeyInfo) : Except String Address :=
  if ki.valid then Except.ok ki.material else Except.error "invalid key material"

/-- A wallet: an ordered-by-insertion collection of key records, backed by
the repository's wallet datastore. -/
abbrev Wallet := List KeyInfo

/-- Modelled from the spec: the wallet's Import "validates and derives its
address, then persists it"; on validation failure nothing is persisted. -/
def Wallet.importKey (w : Wallet) (ki : KeyInfo) : Except String Wallet :=
  match ki.address with
  | Except.error e => Except.error e
  | Except.ok _ => Except.ok (w ++ [ki])

/-- Modelled from the spec: the wallet's NewKeyInfo generates a fresh key
record (the wallet assigns and persists its address); generation is
modelled as deterministic in the freshness counter. -/
def Wallet.newKeyInfo (w : Wallet) (supply : Nat) : KeyInfo × Wallet × Nat :=
  let ki : KeyInfo := ⟨supply, true⟩
  (ki, w ++ [ki], supply + 1)

/-- The wallet section of the configuration: the default address field the
source assigns, plus the section's unrelated fields. -/
structure WalletConfig where
  defaultAddress : Option Address
  otherWalletFields : Nat
deriving DecidableEq, Repr

/-- The repository configuration object: the wallet section plus all
unrelated fields, persisted as a whole object. -/
structure Config where
  wallet : WalletConfig
  otherFields : Nat
deriving DecidableEq, Repr

/-- The repository state: key store, wallet datastore contents, in-memory
and persisted configuration, whether genesis chain state is installed,
failure switches for the external collaborators that can fail, and the
freshness counter for key generation. -/
structure Repo where
  keystore : Keystore
  walletDS : Wallet
  config : Config
  persistedConfig : Config
  chainInstalled : Bool
  walletOpenFails : Bool
  replaceConfigFails : Bool
  keygenSupply : Nat
deriving DecidableEq, Repr

/-- `errors.Wrap(err, msg)` of github.com/pkg/errors: the wrapped error's
message is the annotation followed by the original message. -/
def wrapErr (msg e : String) : String := msg ++ ": " ++ e

/-- Modelled from the spec: `wallet.NewDSBackend` opens the wallet backend
over the repository's wallet datastore; failure is modelled by a switch on
the repository. -/
def Repo.newDSBackend (r : Repo) : Except String Wallet :=
  if r.walletOpenFails then Except.error "datastore error"
  else Except.ok r.walletDS

/-- Modelled from the spec: `ReplaceConfig` persists the entire
configuration object in a single whole-object write; failure is modelled
by a switch on the repository. -/
def Repo.replaceConfig (r : Repo) (c : Config) : Except String Repo :=
  if r.replaceConfigFails then Except.error "write error"
  else Except.ok { r with persistedConfig := c }

/-- Modelled from the spec: `chain.Init` installs the genesis chain state
produced by the genesis function into the repository's storage, or
propagates the genesis function's error.  The genesis function itself is an
external parameter, modelled by its result. -/
def chainInit (r : Repo) (gen : Except String Nat) : Except String (Nat × Repo) :=
  match gen with
  | Except.error e => Except.error e
  | Except.ok g => Except.ok (g, { r with chainInstalled := true })

/-- `defaultPeerKeyBits` from the source. -/
def defaultPeerKeyBits : Nat := 2048

/-- `initCfg` from the source: configuration for initializing a node's
repo. -/
structure initCfg where
  peerKey : Option PrivKey
  defaultKey : Option KeyInfo
  initImports : List KeyInfo

/-- `InitOpt` from the source: an option for initialization of a node's
repo. -/
def InitOpt := initCfg → initCfg

/-- `PeerKeyOpt` from the source: sets the private key for a node's
'self' libp2p identity. -/
def PeerKeyOpt (k : PrivKey) : InitOpt :=
  fun opts => { opts with peerKey := some k }

/-- `DefaultKeyOpt` from the source: sets the private key for the wallet's
default account. -/
def DefaultKeyOpt (ki : KeyInfo) : InitOpt :=
  fun opts => { opts with defaultKey := some ki }

/-- `ImportKeyOpt` from the source: appends the provided key to the list of
keys imported during initialization. -/
def ImportKeyOpt (ki : KeyInfo) : InitOpt :=
  fun opts => { opts with initImports := opts.initImports ++ [ki] }

/-- `initPeerKey` from the source: generate a peer key when none is
supplied (with the fixed algorithm and size), then store it under "self".
The freshness counter is threaded explicitly. -/
def initPeerKey (store : Keystore) (key : Option PrivKey) (supply : Nat) :
    Except String (Keystore × Nat) :=
  let (k, supply) :=
    match key with
    | none => (generateKeyPair KeyAlgo.RSA defaultPeerKeyBits supply, supply + 1)
    | some k => (k, supply)
  Except.ok (store.put "self" k, supply)

/-- `initDefaultKey` from the source: generate a default wallet key when
none is supplied, otherwise import the supplied record; the returned record
is the supplied one in the latter case.  The wallet state is returned
explicitly, also on failure (nothing was persisted then). -/
def initDefaultKey (w : Wallet) (key : Option KeyInfo) (supply : Nat) :
    (Except String KeyInfo) × Wallet × Nat :=
  match key with
  | none =>
      let (ki, w, supply) := Wallet.newKeyInfo w supply
      (Except.ok ki, w, supply)
  | some ki =>
      match w.importKey ki with
      | Except.error e => (Except.error (wrapErr "failed to import default key" e), w, supply)
      | Except.ok w => (Except.ok ki, w, supply)

/-- `importInitKeys` from the source: imports each record strictly in list
order; the first failing import stops the loop, its error is returned
unmodified, and the wallet keeps the records imported before it. -/
def importInitKeys (w : Wallet) (importKeys : List KeyInfo) : Wallet × Option String :=
  match importKeys with
  | [] => (w, none)
  | ki :: rest =>
      match w.importKey ki with
      | Except.error e => (w, some e)
      | Except.ok w => importInitKeys w rest

/-- Instrumentation of `importInitKeys`: the list of records on which a
wallet import is actually attempted, in order. -/
def importAttempts (w : Wallet) (importKeys : List KeyInfo) : List KeyInfo :=
  match importKeys with
  | [] => []
  | ki :: rest =>
      match w.importKey ki with
      | Except.error _ => [ki]
      | Except.ok w => ki :: importAttempts w rest

/-- `Init` from the source: initializes a repo with genesis state and keys.
Returns the repository state left behind together with the error, if any
(Go mutates the repository in place, so effects of completed stages persist
across a failed run). -/
def Init (r : Repo) (gen : Except String Nat) (opts : List InitOpt) :
    Repo × Option String :=
  let cfg := opts.foldl (fun c o => o c) ⟨none, none, []⟩
  match chainInit r gen with
  | Except.error e => (r, some (wrapErr "Could not Init Node" e))
  | Except.ok (_g, r) =>
    match initPeerKey r.keystore cfg.peerKey r.keygenSupply with
    | Except.error e => (r, some e)
    | Except.ok (ks, supply) =>
      let r := { r with keystore := ks, keygenSupply := supply }
      match r.newDSBackend with
      | Except.error e => (r, some (wrapErr "failed to open wallet datastore" e))
      | Except.ok w0 =>
        match initDefaultKey w0 cfg.defaultKey r.keygenSupply with
        | (Except.error e, w, supply) =>
            ({ r with walletDS := w, keygenSupply := supply }, some e)
        | (Except.ok defaultKey, w, supply) =>
          let r := { r with walletDS := w, keygenSupply := supply }
          match importInitKeys r.walletDS cfg.initImports with
          | (w, some e) => ({ r with walletDS := w }, some e)
          | (w, none) =>
            let r := { r with walletDS := w }
            match defaultKey.address with
            | Except.error e =>
                (r, some (wrapErr "failed to extract address from default key" e))
            | Except.ok defaultAddress =>
              let r := { r with config :=
                { r.config with wallet :=
                  { r.config.wallet with defaultAddress := some defaultAddress } } }
              match r.replaceConfig r.config with
              | Except.error e => (r, some (wrapErr "failed to write config" e))
              | Except.ok r => (r, none)

/-- A freshly created repository with empty stores, used to instantiate the
general theorems on concrete inputs. -/
def sampleRepo : Repo :=
  { keystore := [], walletDS := [], config := ⟨⟨none, 7⟩, 5⟩,
    persistedConfig := ⟨⟨none, 7⟩, 5⟩, chainInstalled := false,
    walletOpenFails := false, replaceConfigFails := false, keygenSupply := 0 }

/-- The sample repository with a failing wallet backend. -/
def sampleRepoWalletFail : Repo := { sampleRepo with walletOpenFails := true }

/-- The sample repository with a failing configuration write. -/
def sampleRepoCfgFail : Repo := { sampleRepo with replaceConfigFails := true }

/-! ## Helper lemmas -/

theorem countFor_put (ks : Keystore) (name : String) (k : PrivKey) :
    (ks.put name k).countFor name = 1 := by
  have h : (ks.filter (fun p => p.fst != name)).filter (fun p => p.fst == name) = [] := by
    rw [List.filter_eq_nil_iff]
    intro a ha
    have h1 := List.of_mem_filter ha
    simp only [bne_iff_ne, ne_eq, decide_not] at h1 ⊢
    simpa using h1
  simp [Keystore.put, Keystore.countFor, h]

theorem getKey_put (ks : Keystore) (name : String) (k : PrivKey) :
    (ks.put name k).getKey name = some k := by
  simp [Keystore.put, Keystore.getKey, List.find?]

theorem importInitKeys_all_ok (w : Wallet) (keys : List KeyInfo)
    (h : ∀ k ∈ keys, k.valid = true) :
    importInitKeys w keys = (w ++ keys, none) := by
  induction keys generalizing w with
  | nil => simp [importInitKeys]
  | cons ki rest ih =>
      have hki : ki.valid = true := h ki (by simp)
      have hrest : ∀ k ∈ rest, k.valid = true := fun k hk => h k (by simp [hk])
      simp [importInitKeys, Wallet.importKey, KeyInfo.address, hki, ih _ hrest]

theorem importInitKeys_stops (w : Wallet) (pre : List KeyInfo) (ki : KeyInfo)
    (rest : List KeyInfo) (hpre : ∀ k ∈ pre, k.valid = true)
    (hki : ki.valid = false) :
    importInitKeys w (pre ++ ki :: rest) = (w ++ pre, some "invalid key material") := by
  induction pre generalizing w with
  | nil => simp [importInitKeys, Wallet.importKey, KeyInfo.address, hki]
  | cons a t ih =>
      have ha : a.valid = true := hpre a (by simp)
      have ht : ∀ k ∈ t, k.valid = true := fun k hk => hpre k (by simp [hk])
      simp [importInitKeys, Wallet.importKey, KeyInfo.address, ha, ih _ ht]

theorem importAttempts_stops (w : Wallet) (pre : List KeyInfo) (ki : KeyInfo)
    (rest : List KeyInfo) (hpre : ∀ k ∈ pre, k.valid = true)
    (hki : ki.valid = false) :
    importAttempts w (pre ++ ki :: rest) = pre ++ [ki] := by
  induction pre generalizing w with
  | nil => simp [importAttempts, Wallet.importKey, KeyInfo.address, hki]
  | cons a t ih =>
      have ha : a.valid = true := hpre a (by simp)
      have ht : ∀ k ∈ t, k.valid = true := fun k hk => hpre k (by simp [hk])
      simp [importAttempts, Wallet.importKey, KeyInfo.address, ha, ih _ ht]

theorem foldl_importOpts (imports : List KeyInfo) (c : initCfg) :
    (imports.map ImportKeyOpt).foldl (fun c o => o c) c =
      { c with initImports := c.initImports ++ imports } := by
  induction imports generalizing c with
  | nil => simp
  | cons ki rest ih => simp [ImportKeyOpt, ih]

/-! ## Claim theorems -/

/-- C3: for every repository and every failing genesis function, `Init`
returns an error wrapping the genesis failure, and the key store, the
wallet datastore, the in-memory configuration and the persisted
configuration are all left untouched: the repository is returned exactly as
it was, no later stage having been attempted. -/
theorem init_genesis_failure_leaves_repo_untouched (r : Repo) (e : String)
    (opts : List InitOpt) :
    Init r (Except.error e) opts = (r, some (wrapErr "Could not Init Node" e)) ∧
    (Init r (Except.error e) opts).fst.keystore = r.keystore ∧
    (Init r (Except.error e) opts).fst.walletDS = r.walletDS ∧
    (Init r (Except.error e) opts).fst.persistedConfig = r.persistedConfig ∧
    (Init r (Except.error e) opts).fst.config = r.config ∧
    (Init r (Except.error e) opts).fst.chainInstalled = r.chainInstalled := by
  refine ⟨?_, ?_, ?_, ?_, ?_, ?_⟩ <;> simp [Init, chainInit]

/-- C5: `initPeerKey` stores a supplied keypair byte-identical under the
fixed alias "self"; with no keypair supplied it stores one generated with
the fixed RSA algorithm at the fixed size `defaultPeerKeyBits = 2048`; in
both cases the write is a single unconditional `put` on an arbitrary prior
key store, which overwrites any prior entry under "self" and leaves exactly
one entry under that alias — no existence check. -/
theorem initPeerKey_stores_self (ks : Keystore) (supply : Nat) (k : PrivKey) :
    initPeerKey ks (some k) supply = Except.ok (ks.put "self" k, supply) ∧
    (ks.put "self" k).getKey "self" = some k ∧
    (ks.put "self" k).countFor "self" = 1 ∧
    initPeerKey ks none supply =
      Except.ok (ks.put "self" (generateKeyPair KeyAlgo.RSA defaultPeerKeyBits supply),
        supply + 1) ∧
    (generateKeyPair KeyAlgo.RSA defaultPeerKeyBits supply).alg = KeyAlgo.RSA ∧
    (generateKeyPair KeyAlgo.RSA defaultPeerKeyBits supply).bits = 2048 ∧
    defaultPeerKeyBits = 2048 :=
  ⟨rfl, getKey_put ks "self" k, countFor_put ks "self" k, rfl, rfl, rfl, rfl⟩

/-- C1: for every repository whose wallet datastore is empty and whose
collaborators do not fail, and every succeeding genesis function, `Init`
with no options returns no error; afterwards the key store holds exactly
one entry under the alias "self", the wallet holds exactly one key record —
the freshly generated one — and both the in-memory and the persisted
configuration's default wallet address equal the address derived from that
record. -/
theorem init_no_options_provisions_defaults (r : Repo) (g : Nat)
    (hw : r.walletDS = []) (hwo : r.walletOpenFails = false)
    (hrc : r.replaceConfigFails = false) :
    ∃ ki : KeyInfo,
      (Init r (Except.ok g) []).snd = none ∧
      (Init r (Except.ok g) []).fst.keystore.countFor "self" = 1 ∧
      (Init r (Except.ok g) []).fst.walletDS = [ki] ∧
      ki = (Wallet.newKeyInfo [] (r.keygenSupply + 1)).fst ∧
      ki.address = Except.ok ki.material ∧
      (Init r (Except.ok g) []).fst.config.wallet.defaultAddress = some ki.material ∧
      (Init r (Except.ok g) []).fst.persistedConfig.wallet.defaultAddress =
        some ki.material := by
  refine ⟨⟨r.keygenSupply + 1, true⟩, ?_, ?_, ?_, rfl, rfl, ?_, ?_⟩ <;>
    simp [Init, chainInit, initPeerKey, generateKeyPair, Repo.newDSBackend,
      initDefaultKey, Wallet.newKeyInfo, importInitKeys, KeyInfo.address,
      Repo.replaceConfig, wrapErr, hw, hwo, hrc, countFor_put]

/-- C2 counterexample: the error `Init` returns when an additional key
fails to import is the wallet's raw validation error, carrying no
step-identifying wrap and no position information — it is literally the
same error whether the malformed key sits at position 0 or at position 1 of
the supplied import list, so it cannot identify the failing key's
position. -/
theorem init_import_error_ignores_position :
    (Init sampleRepo (Except.ok 0) [ImportKeyOpt ⟨5, false⟩]).snd =
      some "invalid key material" ∧
    (Init sampleRepo (Except.ok 0)
        [ImportKeyOpt ⟨9, true⟩, ImportKeyOpt ⟨5, false⟩]).snd =
      some "invalid key material" ∧
    Wallet.importKey [] ⟨5, false⟩ = Except.error "invalid key material" :=
  ⟨rfl, rfl, rfl⟩

/-- C2 (amended): the genesis stage (like the other non-import stages)
wraps its error with a step-identifying message, but a failing import of an
additional key is returned unmodified: whenever the records before position
k are well-formed and the k-th is malformed, `Init` returns exactly the
wallet's own import error, which carries no step label and no information
about the position k. -/
theorem init_import_error_unwrapped (r : Repo) (g : Nat)
    (pre rest : List KeyInfo) (ki : KeyInfo)
    (hw : r.walletDS = []) (hwo : r.walletOpenFails = false)
    (hpre : ∀ k ∈ pre, k.valid = true) (hki : ki.valid = false) :
    (Init r (Except.ok g) ((pre ++ ki :: rest).map ImportKeyOpt)).snd =
      some "invalid key material" ∧
    (∀ w : Wallet, w.importKey ki = Except.error "invalid key material") ∧
    (∀ e, (Init r (Except.error e) ((pre ++ ki :: rest).map ImportKeyOpt)).snd =
      some ("Could not Init Node" ++ ": " ++ e)) := by
  refine ⟨?_, ?_, ?_⟩
  · rw [Init.eq_def, foldl_importOpts (pre ++ ki :: rest) ⟨none, none, []⟩]
    simp [chainInit, initPeerKey, Repo.newDSBackend, initDefaultKey,
      Wallet.newKeyInfo, KeyInfo.address, hw, hwo,
      importInitKeys_stops ([⟨r.keygenSupply + 1, true⟩]) pre ki rest hpre hki]
  · intro w
    simp [Wallet.importKey, KeyInfo.address, hki]
  · intro e
    simp [Init, chainInit, wrapErr]

/-- C4: `importInitKeys` imports the supplied records strictly in list
order (an all-well-formed list is appended to the wallet exactly in order);
when the records before position k are well-formed and the k-th is
malformed, it stops with the wallet's error, the wallet keeps exactly the
records before position k (all still present), and the attempt trace shows
no record after position k is ever attempted. -/
theorem importInitKeys_in_order_stops_at_failure (w : Wallet)
    (pre : List KeyInfo) (ki : KeyInfo) (rest : List KeyInfo)
    (hpre : ∀ k ∈ pre, k.valid = true) (hki : ki.valid = false) :
    importInitKeys w (pre ++ ki :: rest) = (w ++ pre, some "invalid key material") ∧
    importAttempts w (pre ++ ki :: rest) = pre ++ [ki] ∧
    (∀ k ∈ pre, k ∈ (importInitKeys w (pre ++ ki :: rest)).fst) ∧
    (∀ keys : List KeyInfo, (∀ k ∈ keys, k.valid = true) →
      importInitKeys w keys = (w ++ keys, none)) := by
  refine ⟨importInitKeys_stops w pre ki rest hpre hki,
    importAttempts_stops w pre ki rest hpre hki, ?_,
    fun keys hall => importInitKeys_all_ok w keys hall⟩
  intro k hk
  rw [importInitKeys_stops w pre ki rest hpre hki]
  exact List.mem_append.mpr (Or.inr hk)

/-- C6: supplying a well-formed default key record and no imports to `Init`
on a repository with empty wallet datastore and non-failing collaborators
succeeds; the wallet's single key is the supplied record itself (imported,
not generated), `initDefaultKey` returns that supplied record, and both the
in-memory and persisted configuration's default wallet address equal the
address derived from it. -/
theorem init_supplied_default_key (r : Repo) (g : Nat) (ki : KeyInfo)
    (hw : r.walletDS = []) (hwo : r.walletOpenFails = false)
    (hrc : r.replaceConfigFails = false) (hki : ki.valid = true) :
    (Init r (Except.ok g) [DefaultKeyOpt ki]).snd = none ∧
    (Init r (Except.ok g) [DefaultKeyOpt ki]).fst.walletDS = [ki] ∧
    (initDefaultKey [] (some ki) (r.keygenSupply + 1)).fst = Except.ok ki ∧
    ki.address = Except.ok ki.material ∧
    (Init r (Except.ok g) [DefaultKeyOpt ki]).fst.config.wallet.defaultAddress =
      some ki.material ∧
    (Init r (Except.ok g) [DefaultKeyOpt ki]).fst.persistedConfig.wallet.defaultAddress =
      some ki.material := by
  refine ⟨?_, ?_, ?_, ?_, ?_, ?_⟩ <;>
    simp [Init, chainInit, initPeerKey, Repo.newDSBackend, initDefaultKey,
      Wallet.importKey, KeyInfo.address, importInitKeys, Repo.replaceConfig,
      DefaultKeyOpt, hw, hwo, hrc, hki]

/-- C7: supplying N well-formed import records with pairwise distinct
addresses to `Init` on a repository with empty wallet datastore and
non-failing collaborators succeeds and yields a wallet holding exactly
1 + N records: the freshly generated default key followed by every supplied
record, in exactly the order the options were given. -/
theorem init_imports_all_present (r : Repo) (g : Nat) (imports : List KeyInfo)
    (hw : r.walletDS = []) (hwo : r.walletOpenFails = false)
    (hrc : r.replaceConfigFails = false)
    (hvalid : ∀ k ∈ imports, k.valid = true)
    (_hdistinct : (imports.map KeyInfo.material).Nodup) :
    (Init r (Except.ok g) (imports.map ImportKeyOpt)).snd = none ∧
    (Init r (Except.ok g) (imports.map ImportKeyOpt)).fst.walletDS =
      (Wallet.newKeyInfo [] (r.keygenSupply + 1)).fst :: imports ∧
    (Init r (Except.ok g) (imports.map ImportKeyOpt)).fst.walletDS.length =
      1 + imports.length := by
  have himp := importInitKeys_all_ok ([⟨r.keygenSupply + 1, true⟩]) imports hvalid
  refine ⟨?_, ?_, ?_⟩ <;>
    simp [Init, chainInit, initPeerKey, Repo.newDSBackend, initDefaultKey,
      Wallet.newKeyInfo, KeyInfo.address, Repo.replaceConfig, wrapErr,
      foldl_importOpts imports ⟨none, none, []⟩, himp, hw, hwo, hrc,
      Nat.add_comm]

/-- C8: on every successful run of `Init`, the persisted configuration is
the single whole-object write of the in-memory configuration after
assigning only the default-wallet-address field: it equals the
configuration present at call time with only that field changed, so the
wallet section's other fields and all unrelated fields are preserved
verbatim, and some address was assigned. -/
theorem init_config_commit_whole_object (r : Repo) (gen : Except String Nat)
    (opts : List InitOpt) (h : (Init r gen opts).snd = none) :
    (Init r gen opts).fst.persistedConfig =
      { r.config with wallet :=
        { r.config.wallet with defaultAddress :=
            (Init r gen opts).fst.persistedConfig.wallet.defaultAddress } } ∧
    (Init r gen opts).fst.persistedConfig.otherFields = r.config.otherFields ∧
    (Init r gen opts).fst.persistedConfig.wallet.otherWalletFields =
      r.config.wallet.otherWalletFields ∧
    (Init r gen opts).fst.persistedConfig = (Init r gen opts).fst.config ∧
    ∃ a, (Init r gen opts).fst.persistedConfig.wallet.defaultAddress = some a := by
  rcases hE : Init r gen opts with ⟨r2, err⟩
  rw [hE] at h
  simp only at h
  subst h
  cases gen with
  | error e =>
      rw [Init.eq_def] at hE
      simp [chainInit] at hE
  | ok g0 =>
      rw [Init.eq_def] at hE
      simp only [chainInit, Repo.replaceConfig] at hE
      split at hE
      · exact absurd (congrArg Prod.snd hE).symm (by simp)
      · split at hE
        · exact absurd (congrArg Prod.snd hE).symm (by simp)
        · split at hE
          · exact absurd (congrArg Prod.snd hE).symm (by simp)
          · split at hE
            · exact absurd (congrArg Prod.snd hE).symm (by simp)
            · split at hE
              · exact absurd (congrArg Prod.snd hE).symm (by simp)
              · split at hE
                · exact absurd (congrArg Prod.snd hE).symm (by simp)
                · rename_i x3 r3 hif
                  split at hif
                  · exact absurd hif (by simp)
                  · injection hif with hif
                    subst hif
                    have h2 := congrArg Prod.fst hE
                    simp only at h2
                    subst h2
                    simp

/-- C9: when opening the wallet backend fails, `Init` (with a succeeding
genesis function and any options) returns an error wrapping that failure;
at that point the key store already contains exactly one "self" entry and
genesis state is already installed, while the wallet datastore, the
in-memory configuration and the persisted configuration were never
touched. -/
theorem init_wallet_open_failure_state (r : Repo) (g : Nat) (opts : List InitOpt)
    (hwo : r.walletOpenFails = true) :
    (Init r (Except.ok g) opts).snd =
      some (wrapErr "failed to open wallet datastore" "datastore error") ∧
    (Init r (Except.ok g) opts).fst.keystore.countFor "self" = 1 ∧
    (Init r (Except.ok g) opts).fst.chainInstalled = true ∧
    (Init r (Except.ok g) opts).fst.walletDS = r.walletDS ∧
    (Init r (Except.ok g) opts).fst.config = r.config ∧
    (Init r (Except.ok g) opts).fst.persistedConfig = r.persistedConfig := by
  rw [Init.eq_def]
  simp only [chainInit]
  generalize List.foldl (fun c o => o c) (⟨none, none, []⟩ : initCfg) opts = cfg
  cases hpk : cfg.peerKey with
  | none =>
      simp [hpk, initPeerKey, Repo.newDSBackend, hwo, countFor_put, wrapErr]
  | some k =>
      simp [hpk, initPeerKey, Repo.newDSBackend, hwo, countFor_put, wrapErr]

/-- C10: `Init` assigns the derived default address to the repository's
in-memory configuration object before attempting persistence; when the
final configuration write fails (all earlier stages succeeding), `Init`
returns an error while the in-memory configuration already carries the new
default address, the persisted configuration is unchanged, and the two now
disagree — the mutation is not rolled back. -/
theorem init_replace_config_failure_diverges (r : Repo) (g : Nat)
    (hwo : r.walletOpenFails = false) (hrc : r.replaceConfigFails = true)
    (hp : r.persistedConfig.wallet.defaultAddress = none) :
    (Init r (Except.ok g) []).snd =
      some (wrapErr "failed to write config" "write error") ∧
    (Init r (Except.ok g) []).fst.config.wallet.defaultAddress =
      some (r.keygenSupply + 1) ∧
    (Init r (Except.ok g) []).fst.persistedConfig = r.persistedConfig ∧
    (Init r (Except.ok g) []).fst.config.wallet.defaultAddress ≠
      (Init r (Except.ok g) []).fst.persistedConfig.wallet.defaultAddress := by
  refine ⟨?_, ?_, ?_, ?_⟩ <;>
    simp [Init, chainInit, initPeerKey, Repo.newDSBackend, initDefaultKey,
      Wallet.newKeyInfo, importInitKeys, KeyInfo.address, Repo.replaceConfig,
      wrapErr, hwo, hrc, hp]

/-! ## Witnesses: the general theorems instantiated on concrete inputs -/

/-- Witness for C1 at the fresh sample repository. -/
theorem init_no_options_provisions_defaults_witness :
    sampleRepo.walletDS = [] ∧ sampleRepo.walletOpenFails = false ∧
    sampleRepo.replaceConfigFails = false ∧
    (∃ ki : KeyInfo,
      (Init sampleRepo (Except.ok 0) []).snd = none ∧
      (Init sampleRepo (Except.ok 0) []).fst.keystore.countFor "self" = 1 ∧
      (Init sampleRepo (Except.ok 0) []).fst.walletDS = [ki] ∧
      ki = (Wallet.newKeyInfo [] (sampleRepo.keygenSupply + 1)).fst ∧
      ki.address = Except.ok ki.material ∧
      (Init sampleRepo (Except.ok 0) []).fst.config.wallet.defaultAddress =
        some ki.material ∧
      (Init sampleRepo (Except.ok 0) []).fst.persistedConfig.wallet.defaultAddress =
        some ki.material) :=
  ⟨rfl, rfl, rfl, init_no_options_provisions_defaults sampleRepo 0 rfl rfl rfl⟩

/-- Witness for the amended C2 at the sample repository, with the malformed
key at position 1 of a three-element import list. -/
theorem init_import_error_unwrapped_witness :
    sampleRepo.walletDS = [] ∧ sampleRepo.walletOpenFails = false ∧
    (∀ k ∈ [(⟨9, true⟩ : KeyInfo)], k.valid = true) ∧
    (⟨5, false⟩ : KeyInfo).valid = false ∧
    ((Init sampleRepo (Except.ok 0)
        (([(⟨9, true⟩ : KeyInfo)] ++ (⟨5, false⟩ : KeyInfo) ::
          [(⟨11, true⟩ : KeyInfo)]).map ImportKeyOpt)).snd =
      some "invalid key material" ∧
     (∀ w : Wallet, w.importKey ⟨5, false⟩ = Except.error "invalid key material") ∧
     (∀ e, (Init sampleRepo (Except.error e)
        (([(⟨9, true⟩ : KeyInfo)] ++ (⟨5, false⟩ : KeyInfo) ::
          [(⟨11, true⟩ : KeyInfo)]).map ImportKeyOpt)).snd =
       some ("Could not Init Node" ++ ": " ++ e))) :=
  ⟨rfl, rfl, by decide, rfl,
    init_import_error_unwrapped sampleRepo 0 [⟨9, true⟩] [⟨11, true⟩] ⟨5, false⟩
      rfl rfl (by decide) rfl⟩

/-- Witness for C4 on a concrete wallet and import list whose middle record
is malformed. -/
theorem importInitKeys_in_order_stops_at_failure_witness :
    (∀ k ∈ [(⟨1, true⟩ : KeyInfo)], k.valid = true) ∧
    (⟨2, false⟩ : KeyInfo).valid = false ∧
    (importInitKeys [] ([(⟨1, true⟩ : KeyInfo)] ++ (⟨2, false⟩ : KeyInfo) ::
        [(⟨3, true⟩ : KeyInfo)]) =
      ([] ++ [(⟨1, true⟩ : KeyInfo)], some "invalid key material") ∧
     importAttempts [] ([(⟨1, true⟩ : KeyInfo)] ++ (⟨2, false⟩ : KeyInfo) ::
        [(⟨3, true⟩ : KeyInfo)]) = [(⟨1, true⟩ : KeyInfo)] ++ [⟨2, false⟩] ∧
     (∀ k ∈ [(⟨1, true⟩ : KeyInfo)],
        k ∈ (importInitKeys [] ([(⟨1, true⟩ : KeyInfo)] ++ (⟨2, false⟩ : KeyInfo) ::
          [(⟨3, true⟩ : KeyInfo)])).fst) ∧
     (∀ keys : List KeyInfo, (∀ k ∈ keys, k.valid = true) →
        importInitKeys [] keys = ([] ++ keys, none))) :=
  ⟨by decide, rfl,
    importInitKeys_in_order_stops_at_failure [] [⟨1, true⟩] ⟨2, false⟩ [⟨3, true⟩]
      (by decide) rfl⟩

/-- Witness for C6 at the sample repository with a concrete well-formed
default key record. -/
theorem init_supplied_default_key_witness :
    sampleRepo.walletDS = [] ∧ sampleRepo.walletOpenFails = false ∧
    sampleRepo.replaceConfigFails = false ∧ (⟨7, true⟩ : KeyInfo).valid = true ∧
    ((Init sampleRepo (Except.ok 0) [DefaultKeyOpt ⟨7, true⟩]).snd = none ∧
     (Init sampleRepo (Except.ok 0) [DefaultKeyOpt ⟨7, true⟩]).fst.walletDS =
       [⟨7, true⟩] ∧
     (initDefaultKey [] (some ⟨7, true⟩) (sampleRepo.keygenSupply + 1)).fst =
       Except.ok ⟨7, true⟩ ∧
     (⟨7, true⟩ : KeyInfo).address = Except.ok (⟨7, true⟩ : KeyInfo).material ∧
     (Init sampleRepo (Except.ok 0)
        [DefaultKeyOpt ⟨7, true⟩]).fst.config.wallet.defaultAddress =
       some (⟨7, true⟩ : KeyInfo).material ∧
     (Init sampleRepo (Except.ok 0)
        [DefaultKeyOpt ⟨7, true⟩]).fst.persistedConfig.wallet.defaultAddress =
       some (⟨7, true⟩ : KeyInfo).material) :=
  ⟨rfl, rfl, rfl, rfl, init_supplied_default_key sampleRepo 0 ⟨7, true⟩ rfl rfl rfl rfl⟩

/-- Witness for C7 at the sample repository with two well-formed import
records with distinct addresses. -/
theorem init_imports_all_present_witness :
    sampleRepo.walletDS = [] ∧ sampleRepo.walletOpenFails = false ∧
    sampleRepo.replaceConfigFails = false ∧
    (∀ k ∈ [(⟨3, true⟩ : KeyInfo), ⟨4, true⟩], k.valid = true) ∧
    ([(⟨3, true⟩ : KeyInfo), ⟨4, true⟩].map KeyInfo.material).Nodup ∧
    ((Init sampleRepo (Except.ok 0)
        ([(⟨3, true⟩ : KeyInfo), ⟨4, true⟩].map ImportKeyOpt)).snd = none ∧
     (Init sampleRepo (Except.ok 0)
        ([(⟨3, true⟩ : KeyInfo), ⟨4, true⟩].map ImportKeyOpt)).fst.walletDS =
       (Wallet.newKeyInfo [] (sampleRepo.keygenSupply + 1)).fst ::
         [⟨3, true⟩, ⟨4, true⟩] ∧
     (Init sampleRepo (Except.ok 0)
        ([(⟨3, true⟩ : KeyInfo), ⟨4, true⟩].map ImportKeyOpt)).fst.walletDS.length =
       1 + [(⟨3, true⟩ : KeyInfo), ⟨4, true⟩].length) :=
  ⟨rfl, rfl, rfl, by decide, by decide,
    init_imports_all_present sampleRepo 0 [⟨3, true⟩, ⟨4, true⟩] rfl rfl rfl
      (by decide) (by decide)⟩

/-- Witness for C8 at a successful concrete run of `Init`. -/
theorem init_config_commit_whole_object_witness :
    (Init sampleRepo (Except.ok 0) []).snd = none ∧
    ((Init sampleRepo (Except.ok 0) []).fst.persistedConfig =
      { sampleRepo.config with wallet :=
        { sampleRepo.config.wallet with defaultAddress :=
            (Init sampleRepo (Except.ok 0) []).fst.persistedConfig.wallet.defaultAddress } } ∧
     (Init sampleRepo (Except.ok 0) []).fst.persistedConfig.otherFields =
       sampleRepo.config.otherFields ∧
     (Init sampleRepo (Except.ok 0) []).fst.persistedConfig.wallet.otherWalletFields =
       sampleRepo.config.wallet.otherWalletFields ∧
     (Init sampleRepo (Except.ok 0) []).fst.persistedConfig =
       (Init sampleRepo (Except.ok 0) []).fst.config ∧
     ∃ a, (Init sampleRepo (Except.ok 0) []).fst.persistedConfig.wallet.defaultAddress =
       some a) :=
  ⟨rfl, init_config_commit_whole_object sampleRepo (Except.ok 0) [] rfl⟩

/-- Witness for C9 at the sample repository whose wallet backend fails to
open. -/
theorem init_wallet_open_failure_state_witness :
    sampleRepoWalletFail.walletOpenFails = true ∧
    ((Init sampleRepoWalletFail (Except.ok 0) []).snd =
      some (wrapErr "failed to open wallet datastore" "datastore error") ∧
     (Init sampleRepoWalletFail (Except.ok 0) []).fst.keystore.countFor "self" = 1 ∧
     (Init sampleRepoWalletFail (Except.ok 0) []).fst.chainInstalled = true ∧
     (Init sampleRepoWalletFail (Except.ok 0) []).fst.walletDS =
       sampleRepoWalletFail.walletDS ∧
     (Init sampleRepoWalletFail (Except.ok 0) []).fst.config =
       sampleRepoWalletFail.config ∧
     (Init sampleRepoWalletFail (Except.ok 0) []).fst.persistedConfig =
       sampleRepoWalletFail.persistedConfig) :=
  ⟨rfl, init_wallet_open_failure_state sampleRepoWalletFail 0 [] rfl⟩

/-- Witness for C10 at the sample repository whose configuration write
fails. -/
theorem init_replace_config_failure_diverges_witness :
    sampleRepoCfgFail.walletOpenFails = false ∧
    sampleRepoCfgFail.replaceConfigFails = true ∧
    sampleRepoCfgFail.persistedConfig.wallet.defaultAddress = none ∧
    ((Init sampleRepoCfgFail (Except.ok 0) []).snd =
      some (wrapErr "failed to write config" "write error") ∧
     (Init sampleRepoCfgFail (Except.ok 0) []).fst.config.wallet.defaultAddress =
       some (sampleRepoCfgFail.keygenSupply + 1) ∧
     (Init sampleRepoCfgFail (Except.ok 0) []).fst.persistedConfig =
       sampleRepoCfgFail.persistedConfig ∧
     (Init sampleRepoCfgFail (Except.ok 0) []).fst.config.wallet.defaultAddress ≠
       (Init sampleRepoCfgFail (Except.ok 0) []).fst.persistedConfig.wallet.defaultAddress) :=
  ⟨rfl, rfl, rfl, init_replace_config_failure_diverges sampleRepoCfgFail 0 rfl rfl rfl⟩

end Node
